import Mathlib

/-!
Verification development for the Place Intelligence Engine
(zeke-core: app/models/place.py and app/api/places.py).

The data model is embedded from the SQLAlchemy model classes in
app/models/place.py; the API operations on tags, lists and triggers are
embedded from the route handlers in app/api/places.py.  The service layer
(PlaceService: visit tracking, trigger firing, routine analysis, place
discovery) is not part of the visible sources; where a claim depends on it,
the corresponding definition is modelled from the specification and says so
in its doc comment.

Conventions: SQL Float columns become Rat, DateTime columns become Nat
(seconds since the epoch), JSON payloads become opaque Option String,
nullable columns become Option.  Database tables are lists of rows; a query
returning `.first()` becomes `List.find?` and row insertion becomes list
append.
-/

/-- Identity of the single user of this API, from app/api/places.py. -/
def USER_ID : String := "default_user"

/-- Category enumeration, from PlaceCategory in app/models/place.py. -/
inductive PlaceCategory where
  | home | work | school | gym | restaurant | shopping | medical | family | friend | other
deriving DecidableEq, Repr

/-- Row of the places table, from PlaceDB in app/models/place.py. -/
structure PlaceDB where
  id : String
  uid : String
  name : String
  latitude : Rat
  longitude : Rat
  radius_meters : Rat
  category : String
  address : Option String
  is_auto_detected : Bool
  is_confirmed : Bool
  visit_count : Nat
  total_dwell_time_minutes : Nat
  first_visited : Option Nat
  last_visited : Option Nat
deriving DecidableEq, Repr

/-- Row of the place_visits table, from PlaceVisitDB in app/models/place.py. -/
structure PlaceVisitDB where
  id : String
  uid : String
  place_id : String
  entered_at : Nat
  exited_at : Option Nat
  dwell_minutes : Option Nat
  day_of_week : Nat
  is_routine : Bool
deriving DecidableEq, Repr

/-- Row of the place_tags table, from PlaceTagDB in app/models/place.py. -/
structure PlaceTagDB where
  id : String
  uid : String
  name : String
  color : Option String
deriving DecidableEq, Repr

/-- Row of the place_tag_links association table, from PlaceTagLinkDB. -/
structure PlaceTagLinkDB where
  place_id : String
  tag_id : String
deriving DecidableEq, Repr

/-- Row of the place_triggers table, from PlaceTriggerDB in app/models/place.py.
The trigger_type and action_type columns are strings in the schema
(storing the TriggerType and TriggerAction enum values). -/
structure PlaceTriggerDB where
  id : String
  uid : String
  place_id : String
  name : String
  trigger_type : String
  action_type : String
  action_payload : Option String
  enabled : Bool
  cooldown_minutes : Nat
  last_triggered : Option Nat
deriving DecidableEq, Repr

/-- Row of the place_lists table, from PlaceListDB in app/models/place.py. -/
structure PlaceListDB where
  id : String
  uid : String
  name : String
  description : Option String
  icon : Option String
  color : Option String
deriving DecidableEq, Repr

/-- Row of the place_list_members association table, from PlaceListMemberDB. -/
structure PlaceListMemberDB where
  list_id : String
  place_id : String
  order : Int
deriving DecidableEq, Repr

/-- Whole database state: one list per table of app/models/place.py. -/
structure DB where
  places : List PlaceDB
  visits : List PlaceVisitDB
  tags : List PlaceTagDB
  tagLinks : List PlaceTagLinkDB
  triggers : List PlaceTriggerDB
  lists : List PlaceListDB
  listMembers : List PlaceListMemberDB
deriving DecidableEq, Repr

/-- Outcome of a route handler: a value, or an HTTPException with a status
code and detail string. -/
inductive ApiResult (α : Type) where
  | ok (value : α)
  | httpError (status : Nat) (detail : String)
deriving DecidableEq, Repr

/-- Route handler create_tag from app/api/places.py: reject with 400 if a tag
with this name already exists for USER_ID, otherwise insert a fresh row.
The uuid the handler generates is passed in as newId. -/
def create_tag (db : DB) (newId : String) (name : String) (color : Option String) :
    DB × ApiResult PlaceTagDB :=
  match db.tags.find? (fun t => t.uid == USER_ID && t.name == name) with
  | some _ => (db, .httpError 400 "Tag already exists")
  | none =>
      let tag : PlaceTagDB := { id := newId, uid := USER_ID, name := name, color := color }
      ({ db with tags := db.tags ++ [tag] }, .ok tag)

/-- Route handler create_place_list from app/api/places.py: reject with 400 if
a list with this name already exists for USER_ID, otherwise insert a fresh
row. -/
def create_place_list (db : DB) (newId : String) (name : String)
    (description icon color : Option String) : DB × ApiResult PlaceListDB :=
  match db.lists.find? (fun l => l.uid == USER_ID && l.name == name) with
  | some _ => (db, .httpError 400 "List already exists")
  | none =>
      let newList : PlaceListDB :=
        { id := newId, uid := USER_ID, name := name,
          description := description, icon := icon, color := color }
      ({ db with lists := db.lists ++ [newList] }, .ok newList)

/-- Route handler add_tag_to_place from app/api/places.py: 404 unless both the
place and the tag exist; insert the link row only when it is not already
present. -/
def add_tag_to_place (db : DB) (place_id tag_id : String) : DB × ApiResult String :=
  match db.places.find? (fun p => p.id == place_id),
        db.tags.find? (fun t => t.id == tag_id) with
  | some _, some _ =>
      match db.tagLinks.find? (fun l => l.place_id == place_id && l.tag_id == tag_id) with
      | some _ => (db, .ok "Tag added to place")
      | none =>
          ({ db with tagLinks := db.tagLinks ++ [{ place_id := place_id, tag_id := tag_id }] },
           .ok "Tag added to place")
  | _, _ => (db, .httpError 404 "Place or tag not found")

/-- Route handler remove_tag_from_place from app/api/places.py: delete the
first matching link if one exists; always succeed. -/
def remove_tag_from_place (db : DB) (place_id tag_id : String) : DB × ApiResult String :=
  ({ db with
      tagLinks := db.tagLinks.eraseP (fun l => l.place_id == place_id && l.tag_id == tag_id) },
   .ok "Tag removed from place")

/-- Route handler add_place_to_list from app/api/places.py: 404 unless both the
list and the place exist; insert the membership row (order defaults to 0)
only when it is not already present. -/
def add_place_to_list (db : DB) (list_id place_id : String) : DB × ApiResult String :=
  match db.lists.find? (fun l => l.id == list_id),
        db.places.find? (fun p => p.id == place_id) with
  | some _, some _ =>
      match db.listMembers.find? (fun m => m.list_id == list_id && m.place_id == place_id) with
      | some _ => (db, .ok "Place added to list")
      | none =>
          ({ db with
              listMembers :=
                db.listMembers ++ [{ list_id := list_id, place_id := place_id, order := 0 }] },
           .ok "Place added to list")
  | _, _ => (db, .httpError 404 "List or place not found")

/-- Route handler remove_place_from_list from app/api/places.py: delete the
first matching membership row if one exists; always succeed. -/
def remove_place_from_list (db : DB) (list_id place_id : String) : DB × ApiResult String :=
  ({ db with
      listMembers :=
        db.listMembers.eraseP (fun m => m.list_id == list_id && m.place_id == place_id) },
   .ok "Place removed from list")

/-- Modelled from the spec: the body of PlaceService.delete_place is not in the
visible sources; the route handler delete_place in app/api/places.py returns
404 when the service reports the place missing.  The cascade behaviour is
taken from the relationship and foreign-key declarations in
app/models/place.py: visits and triggers carry ondelete CASCADE on place_id
(and PlaceDB declares cascade all, delete-orphan for them), and the
association rows place_tag_links and place_list_members carry ondelete
CASCADE on place_id, while the tag and list rows themselves are untouched. -/
def delete_place (db : DB) (place_id : String) : DB × ApiResult String :=
  match db.places.find? (fun p => p.id == place_id) with
  | none => (db, .httpError 404 "Place not found")
  | some _ =>
      ({ db with
          places := db.places.filter (fun p => !(p.id == place_id)),
          visits := db.visits.filter (fun v => !(v.place_id == place_id)),
          triggers := db.triggers.filter (fun t => !(t.place_id == place_id)),
          tagLinks := db.tagLinks.filter (fun l => !(l.place_id == place_id)),
          listMembers := db.listMembers.filter (fun m => !(m.place_id == place_id)) },
       .ok "Place deleted successfully")

/-- Geographic coordinate (latitude, longitude) as exact rationals. -/
structure Coordinate where
  lat : Rat
  lon : Rat
deriving DecidableEq, Repr

/-- Coordinate validation from the spec failure semantics: latitude must lie
in [-90, 90] and longitude in [-180, 180]. -/
def validCoordinate (c : Coordinate) : Bool :=
  -90 ≤ c.lat && c.lat ≤ 90 && -180 ≤ c.lon && c.lon ≤ 180

/-- Modelled from the spec: GeoMath in the missing service uses floating-point
haversine distance; the model uses exact squared planar distance in degrees,
which preserves the comparison structure (nearer, within a threshold) that
the verified claims depend on. -/
def dist2 (a b : Coordinate) : Rat :=
  (a.lat - b.lat) * (a.lat - b.lat) + (a.lon - b.lon) * (a.lon - b.lon)

/-- Modelled from the spec: a coordinate is inside a place when its distance
to the center is at most the place radius. -/
def insidePlace (p : PlaceDB) (c : Coordinate) : Bool :=
  dist2 { lat := p.latitude, lon := p.longitude } c ≤ p.radius_meters * p.radius_meters

/-- Numeric value of an optional last-visited timestamp, used by the
tie-break rule (missing timestamps count as never visited). -/
def lastVisitedAt (p : PlaceDB) : Nat :=
  match p.last_visited with
  | some t => t + 1
  | none => 0

/-- Modelled from the spec tie-break: when a coordinate is inside several
places, the smallest radius wins, then the most recently visited place. -/
def betterMatch (p q : PlaceDB) : Bool :=
  p.radius_meters < q.radius_meters ||
    (p.radius_meters == q.radius_meters && lastVisitedAt q < lastVisitedAt p)

/-- Modelled from the spec: select the winning candidate place, if any. -/
def pickPlace (candidates : List PlaceDB) : Option PlaceDB :=
  candidates.foldl
    (fun acc p =>
      match acc with
      | none => some p
      | some q => if betterMatch p q then some p else some q)
    none

/-- Modelled from the spec: day_of_week is derived from entered_at; with
timestamps in seconds since the epoch day zero was a Thursday. -/
def dayOfWeek (ts : Nat) : Nat :=
  (ts / 86400 + 4) % 7

/-- Events emitted by the visit tracker towards the trigger engine. -/
inductive VisitEvent where
  | entry (place_id : String)
  | exit (place_id : String)
deriving DecidableEq, Repr

/-- Errors of the observe operation, from the spec error taxonomy. -/
inductive ObserveError where
  | invalidInput
  | temporalOrdering
  | consistencyViolation
deriving DecidableEq, Repr

/-- Open visits of one owner: rows with exited_at still null. -/
def openVisits (vs : List PlaceVisitDB) (owner : String) : List PlaceVisitDB :=
  vs.filter (fun v => v.uid == owner && v.exited_at.isNone)

/-- Closing a visit row at time ts: set exited_at and derive dwell_minutes as
whole minutes between entry and exit. -/
def closeVisit (v : PlaceVisitDB) (ts : Nat) : PlaceVisitDB :=
  { v with exited_at := some ts, dwell_minutes := some ((ts - v.entered_at) / 60) }

/-- Fresh open visit row for owner at a place, entered at ts. -/
def newVisit (newId owner pid : String) (ts : Nat) : PlaceVisitDB :=
  { id := newId, uid := owner, place_id := pid, entered_at := ts, exited_at := none,
    dwell_minutes := none, day_of_week := dayOfWeek ts, is_routine := false }

/-- Modelled from the spec: VisitTracker.observe.  The service implementation
is not in the visible sources; this follows the spec algorithm literally.
Invalid coordinates are rejected with InvalidInput and no successor state is
produced.  A sample inside the currently open place changes nothing.  A
sample elsewhere closes the open visit (the update of the single open row is
rendered as removing the open rows of this owner and appending the closed
row) and, when a known place matched, opens a new visit there.  A timestamp
earlier than the open visit entry is rejected with TemporalOrderingError.
Two or more open visits for one owner are a ConsistencyViolation.  An
unmatched sample with no open visit is forwarded to the discoverer and
changes no visit state. -/
def observe (places : List PlaceDB) (visits : List PlaceVisitDB)
    (owner newId : String) (c : Coordinate) (ts : Nat) :
    Except ObserveError (List PlaceVisitDB × List VisitEvent) :=
  if !(validCoordinate c) then
    .error .invalidInput
  else
    let matched := pickPlace ((places.filter (fun p => p.uid == owner && insidePlace p c)))
    match openVisits visits owner with
    | [] =>
        match matched with
        | some q => .ok (visits ++ [newVisit newId owner q.id ts], [.entry q.id])
        | none => .ok (visits, [])
    | [v] =>
        if ts < v.entered_at then
          .error .temporalOrdering
        else
          let stay := visits.filter (fun w => !(w.uid == owner && w.exited_at.isNone))
          match matched with
          | some q =>
              if q.id == v.place_id then
                .ok (visits, [])
              else
                .ok (stay ++ [closeVisit v ts] ++ [newVisit newId owner q.id ts],
                     [.exit v.place_id, .entry q.id])
          | none =>
              .ok (stay ++ [closeVisit v ts], [.exit v.place_id])
    | _ :: _ :: _ => .error .consistencyViolation

/-- Number of open visit rows for one (owner, place) pair. -/
def openCount (vs : List PlaceVisitDB) (owner pid : String) : Nat :=
  vs.countP (fun v => v.uid == owner && v.place_id == pid && v.exited_at.isNone)

/-- Visit-table invariant of the spec data model: at most one open visit per
(owner, place), and every recorded exit is at or after its entry. -/
def visitInvariant (vs : List PlaceVisitDB) : Prop :=
  (∀ owner pid, openCount vs owner pid ≤ 1) ∧
  ∀ v ∈ vs, ∀ t, v.exited_at = some t → v.entered_at ≤ t

/-- Action request emitted by the trigger engine towards the external action
dispatcher, from the spec TriggerEngine contract. -/
structure ActionRequest where
  trigger_id : String
  action_type : String
  action_payload : Option String
deriving DecidableEq, Repr

/-- Modelled from the spec: TriggerEngine evaluation of a single trigger for
one event at time now (minutes).  A disabled trigger or a trigger of another
type does nothing.  Otherwise the trigger is skipped when last_triggered is
set and now minus last_triggered is below cooldown_minutes; otherwise
last_triggered is set to now and an ActionRequest is emitted.  The
dispatchOk flag is the outcome of the external fire-and-forget dispatch; per
the spec it has no effect on the trigger state, which is updated even when
delivery failed. -/
def fireOne (tr : PlaceTriggerDB) (event : String) (now : Nat) (dispatchOk : Bool) :
    PlaceTriggerDB × Option ActionRequest :=
  if tr.enabled && tr.trigger_type == event then
    match tr.last_triggered with
    | some t =>
        if now - t < tr.cooldown_minutes then
          (tr, none)
        else
          ({ tr with last_triggered := some now },
           some { trigger_id := tr.id, action_type := tr.action_type,
                  action_payload := tr.action_payload })
    | none =>
        ({ tr with last_triggered := some now },
         some { trigger_id := tr.id, action_type := tr.action_type,
                action_payload := tr.action_payload })
  else
    (tr, none)

/-- One event fed to a trigger: event type, time in minutes, dispatch
outcome of the external action dispatcher. -/
structure TriggerEvent where
  event : String
  now : Nat
  dispatchOk : Bool
deriving DecidableEq, Repr

/-- Modelled from the spec: run one trigger over a sequence of entry and exit
events, collecting the times at which it emitted an ActionRequest. -/
def runTrigger (tr : PlaceTriggerDB) : List TriggerEvent → PlaceTriggerDB × List Nat
  | [] => (tr, [])
  | e :: rest =>
      let step := fireOne tr e.event e.now e.dispatchOk
      let tail := runTrigger step.1 rest
      match step.2 with
      | some _ => (tail.1, e.now :: tail.2)
      | none => (tail.1, tail.2)

/-- Routine pattern produced by RoutineAnalyzer, from the spec data model:
a (place, day-of-week, hour-bucket) combination with a confidence score. -/
structure RoutinePattern where
  uid : String
  place_id : String
  day_of_week : Nat
  hour_bucket : Nat
  confidence : Rat
deriving DecidableEq, Repr

/-- Deviation report of the routine deviation endpoint. -/
structure DeviationReport where
  is_deviation : Bool
  expected_place : Option String
  actual_place : Option String
  confidence : Rat
deriving DecidableEq, Repr

/-- Modelled from the spec: RoutineAnalyzer.checkDeviation is not in the
visible sources.  It looks up the routine established for the owner and the
current (day-of-week, hour-bucket) slot; when none exists it reports
nothing; when one exists and the current place differs from (or is absent
versus) the expected place it reports a deviation carrying the confidence
of the routine. -/
def checkDeviation (routines : List RoutinePattern) (owner : String)
    (day bucket : Nat) (current : Option String) : Option DeviationReport :=
  match routines.find?
      (fun r => r.uid == owner && r.day_of_week == day && r.hour_bucket == bucket) with
  | none => none
  | some r =>
      if current == some r.place_id then
        none
      else
        some { is_deviation := true, expected_place := some r.place_id,
               actual_place := current, confidence := r.confidence }

/-- Route handler check_routine_deviation from app/api/places.py: when the
service reports no deviation, the endpoint answers with is_deviation set to
false. -/
def check_routine_deviation (routines : List RoutinePattern) (owner : String)
    (day bucket : Nat) (current : Option String) : DeviationReport :=
  match checkDeviation routines owner day bucket current with
  | some d => d
  | none =>
      { is_deviation := false, expected_place := none, actual_place := none, confidence := 0 }

/-- Raw location sample accumulated by the place discoverer. -/
structure Sample where
  lat : Rat
  lon : Rat
  ts : Nat
deriving DecidableEq, Repr

/-- Discovery candidate under construction: running coordinate sums, sample
count, distinct days seen, first and last timestamps. -/
structure Candidate where
  latSum : Rat
  lonSum : Rat
  count : Nat
  days : List Nat
  firstSeen : Nat
  lastSeen : Nat
deriving DecidableEq, Repr

/-- Centroid of a candidate: mean of its member coordinates. -/
def centroid (c : Candidate) : Rat × Rat :=
  (c.latSum / c.count, c.lonSum / c.count)

/-- Modelled from the spec: fixed merge distance of the greedy clustering,
squared, in the planar degree metric of dist2. -/
def mergeDist2 : Rat := 1 / 100000

/-- Candidate seeded from a single sample. -/
def seedCandidate (s : Sample) : Candidate :=
  { latSum := s.lat, lonSum := s.lon, count := 1, days := [s.ts / 86400],
    firstSeen := s.ts, lastSeen := s.ts }

/-- Candidate extended by one more sample. -/
def joinCandidate (c : Candidate) (s : Sample) : Candidate :=
  { latSum := c.latSum + s.lat, lonSum := c.lonSum + s.lon, count := c.count + 1,
    days := if c.days.contains (s.ts / 86400) then c.days else c.days ++ [s.ts / 86400],
    firstSeen := c.firstSeen, lastSeen := s.ts }

/-- Index and squared distance of the candidate whose centroid is nearest to
a sample, scanning left to right and keeping the first minimum. -/
def nearestCandidate (cs : List Candidate) (s : Sample) : Option (Nat × Rat) :=
  (cs.enum.map
      (fun ci => (ci.1, dist2 { lat := ci.2.latSum / ci.2.count, lon := ci.2.lonSum / ci.2.count }
                              { lat := s.lat, lon := s.lon }))).foldl
    (fun best cur =>
      match best with
      | none => some cur
      | some b => if cur.2 < b.2 then some cur else some b)
    none

/-- Modelled from the spec: one step of greedy clustering.  The sample joins
the nearest existing candidate when within the fixed merge distance,
otherwise it seeds a new candidate. -/
def clusterStep (cs : List Candidate) (s : Sample) : List Candidate :=
  match nearestCandidate cs s with
  | some b =>
      if b.2 ≤ mergeDist2 then
        cs.set b.1 (joinCandidate (cs.getD b.1 (seedCandidate s)) s)
      else
        cs ++ [seedCandidate s]
  | none => cs ++ [seedCandidate s]

/-- Timestamp-ascending order used to seed the clustering. -/
def sampleLE (a b : Sample) : Prop := a.ts ≤ b.ts

instance : DecidableRel sampleLE := fun a b => Nat.decLe a.ts b.ts

/-- Modelled from the spec: PlaceDiscoverer clustering.  Samples are taken in
ascending timestamp order and folded through the greedy cluster step. -/
def clusterSamples (samples : List Sample) : List Candidate :=
  (samples.insertionSort sampleLE).foldl clusterStep []

/-- Modelled from the spec: the candidate list the discoverer suggests for a
look-back window, keeping only candidates whose distinct-day count reaches
min_visits, and the centroids it reports. -/
def discoverCentroids (samples : List Sample) (min_visits : Nat) : List (Rat × Rat) :=
  ((clusterSamples samples).filter (fun c => min_visits ≤ c.days.length)).map centroid

/-- Modelled from the spec: PlaceService.create_place is not in the visible
sources; the PlaceCreate schema in app/models/place.py constrains only the
field types, and per the spec error taxonomy the service rejects malformed
coordinates and a non-positive radius synchronously with InvalidInput and
mutates nothing.  On valid input the place row is inserted. -/
def service_create_place (db : DB) (newId name : String) (lat lon radius : Rat)
    (category : String) (address : Option String) (is_auto_detected : Bool) :
    DB × Except Unit PlaceDB :=
  if !(validCoordinate { lat := lat, lon := lon }) || radius ≤ 0 then
    (db, .error ())
  else
    let p : PlaceDB :=
      { id := newId, uid := USER_ID, name := name, latitude := lat, longitude := lon,
        radius_meters := radius, category := category, address := address,
        is_auto_detected := is_auto_detected, is_confirmed := false,
        visit_count := 0, total_dwell_time_minutes := 0,
        first_visited := none, last_visited := none }
    ({ db with places := db.places ++ [p] }, .ok p)

/-- Sample database used by the concrete witnesses below. -/
def sampleDB : DB :=
  { places := [{ id := "pl1", uid := USER_ID, name := "Home", latitude := 40, longitude := -74,
                 radius_meters := 100, category := "home", address := none,
                 is_auto_detected := false, is_confirmed := true, visit_count := 2,
                 total_dwell_time_minutes := 30, first_visited := none, last_visited := none }],
    visits := [],
    tags := [{ id := "tg1", uid := USER_ID, name := "errands", color := none }],
    tagLinks := [{ place_id := "pl1", tag_id := "tg1" }],
    triggers := [],
    lists := [{ id := "ls1", uid := USER_ID, name := "favorites", description := none,
                icon := none, color := none }],
    listMembers := [{ list_id := "ls1", place_id := "pl1", order := 0 }] }

/-- Empty database used by the concrete witnesses below. -/
def emptyDB : DB :=
  { places := [], visits := [], tags := [], tagLinks := [],
    triggers := [], lists := [], listMembers := [] }

/-- Conclusion bundle for removal totality: both removal handlers succeed on
every input, shrink only their own association table and only by the first
matching row, and leave every other table untouched. -/
def removeTotalSpec (db : DB) (place_id tag_id list_id : String) : Prop :=
  (remove_tag_from_place db place_id tag_id).2 = ApiResult.ok "Tag removed from place" ∧
  (remove_place_from_list db list_id place_id).2 = ApiResult.ok "Place removed from list" ∧
  (remove_tag_from_place db place_id tag_id).1.tagLinks.Sublist db.tagLinks ∧
  db.tagLinks.length ≤ (remove_tag_from_place db place_id tag_id).1.tagLinks.length + 1 ∧
  (∀ l ∈ db.tagLinks, ¬(l.place_id = place_id ∧ l.tag_id = tag_id) →
      l ∈ (remove_tag_from_place db place_id tag_id).1.tagLinks) ∧
  (remove_tag_from_place db place_id tag_id).1.places = db.places ∧
  (remove_tag_from_place db place_id tag_id).1.tags = db.tags ∧
  (remove_tag_from_place db place_id tag_id).1.visits = db.visits ∧
  (remove_tag_from_place db place_id tag_id).1.triggers = db.triggers ∧
  (remove_tag_from_place db place_id tag_id).1.lists = db.lists ∧
  (remove_tag_from_place db place_id tag_id).1.listMembers = db.listMembers ∧
  (remove_place_from_list db list_id place_id).1.listMembers.Sublist db.listMembers ∧
  db.listMembers.length ≤ (remove_place_from_list db list_id place_id).1.listMembers.length + 1 ∧
  (∀ m ∈ db.listMembers, ¬(m.list_id = list_id ∧ m.place_id = place_id) →
      m ∈ (remove_place_from_list db list_id place_id).1.listMembers) ∧
  (remove_place_from_list db list_id place_id).1.places = db.places ∧
  (remove_place_from_list db list_id place_id).1.tags = db.tags ∧
  (remove_place_from_list db list_id place_id).1.tagLinks = db.tagLinks ∧
  (remove_place_from_list db list_id place_id).1.visits = db.visits ∧
  (remove_place_from_list db list_id place_id).1.triggers = db.triggers ∧
  (remove_place_from_list db list_id place_id).1.lists = db.lists

/-- Claim C10: removing a tag from a place and removing a place from a list are
total: for every pair of ids, including nonexistent ones, the handler
returns success, deletes at most the one matching association row, and
touches nothing else. -/
theorem remove_assoc_total (db : DB) (place_id tag_id list_id : String) :
    removeTotalSpec db place_id tag_id list_id := by
  unfold removeTotalSpec remove_tag_from_place remove_place_from_list
  refine ⟨rfl, rfl, List.eraseP_sublist _, ?_, ?_, rfl, rfl, rfl, rfl, rfl, rfl,
          List.eraseP_sublist _, ?_, ?_, rfl, rfl, rfl, rfl, rfl, rfl⟩
  · rw [List.length_eraseP]; split <;> omega
  · intro l hl hne
    refine (List.mem_eraseP_of_neg ?_).mpr hl
    simp only [Bool.and_eq_true, beq_iff_eq]
    tauto
  · rw [List.length_eraseP]; split <;> omega
  · intro m hm hne
    refine (List.mem_eraseP_of_neg ?_).mpr hm
    simp only [Bool.and_eq_true, beq_iff_eq]
    tauto

/-- Witness for C10 at a concrete database and ids. -/
theorem remove_assoc_total_witness : removeTotalSpec sampleDB "pl1" "tg1" "ls1" :=
  remove_assoc_total sampleDB "pl1" "tg1" "ls1"

/-- Claim C5: when no routine is established for the current (day-of-week,
hour-bucket) slot of this owner, the analyzer reports no deviation and the
deviation endpoint answers is_deviation = false, whatever the current
location is. -/
theorem no_routine_no_deviation (routines : List RoutinePattern) (owner : String)
    (day bucket : Nat) (current : Option String)
    (h : ∀ r ∈ routines, ¬(r.uid = owner ∧ r.day_of_week = day ∧ r.hour_bucket = bucket)) :
    checkDeviation routines owner day bucket current = none ∧
    (check_routine_deviation routines owner day bucket current).is_deviation = false := by
  have hfind : routines.find?
      (fun r => r.uid == owner && r.day_of_week == day && r.hour_bucket == bucket) = none := by
    rw [List.find?_eq_none]
    intro r hr
    simp only [Bool.and_eq_true, beq_iff_eq, not_and]
    intro h1 h2
    exact h r hr ⟨h1.1, h1.2, h2⟩
  constructor
  · simp [checkDeviation, hfind]
  · simp [check_routine_deviation, checkDeviation, hfind]

/-- Witness for C5: one routine exists, but for another slot; the endpoint
answers is_deviation = false at the queried slot. -/
theorem no_routine_no_deviation_witness :
    checkDeviation [{ uid := "default_user", place_id := "pl1", day_of_week := 1,
                      hour_bucket := 9, confidence := 1 }] "default_user" 2 14 (some "pl2")
        = none ∧
    (check_routine_deviation [{ uid := "default_user", place_id := "pl1", day_of_week := 1,
                                hour_bucket := 9, confidence := 1 }] "default_user" 2 14
        (some "pl2")).is_deviation = false :=
  no_routine_no_deviation _ _ _ _ _ (by decide)

/-- Claim C4: malformed coordinates (latitude outside [-90, 90] or longitude
outside [-180, 180]) or a non-positive radius make place creation fail
synchronously with InvalidInput and leave the database untouched, and a
malformed coordinate makes observe ingestion fail with InvalidInput,
producing no successor visit state. -/
theorem invalid_input_rejected (db : DB) (newId name : String) (lat lon radius : Rat)
    (category : String) (address : Option String) (auto : Bool)
    (places : List PlaceDB) (visits : List PlaceVisitDB) (owner vid : String) (ts : Nat)
    (h : validCoordinate { lat := lat, lon := lon } = false ∨ radius ≤ 0) :
    service_create_place db newId name lat lon radius category address auto
        = (db, Except.error ()) ∧
    (validCoordinate { lat := lat, lon := lon } = false →
      observe places visits owner vid { lat := lat, lon := lon } ts
          = Except.error ObserveError.invalidInput) := by
  constructor
  · unfold service_create_place
    rcases h with h | h
    · simp [h]
    · simp [h]
  · intro hv
    unfold observe
    simp [hv]

/-- Witness for C4: latitude 100 is outside [-90, 90]. -/
theorem invalid_input_rejected_witness :
    service_create_place sampleDB "pl9" "Bad" 100 0 50 "other" none false
        = (sampleDB, Except.error ()) ∧
    (validCoordinate { lat := 100, lon := 0 } = false →
      observe sampleDB.places sampleDB.visits "default_user" "v9" { lat := 100, lon := 0 } 0
          = Except.error ObserveError.invalidInput) :=
  invalid_input_rejected sampleDB "pl9" "Bad" 100 0 50 "other" none false
    sampleDB.places sampleDB.visits "default_user" "v9" 0 (Or.inl (by decide))

/-- Conclusion bundle for the cascade delete of a place: the handler
succeeds, exactly the rows owned by the place (its visits, triggers, tag
links and list memberships) disappear with it, and the tag and list tables
are untouched. -/
def deleteCascadeSpec (db : DB) (place_id : String) : Prop :=
  (delete_place db place_id).2 = ApiResult.ok "Place deleted successfully" ∧
  (∀ p, p ∈ (delete_place db place_id).1.places ↔ p ∈ db.places ∧ p.id ≠ place_id) ∧
  (∀ v, v ∈ (delete_place db place_id).1.visits ↔ v ∈ db.visits ∧ v.place_id ≠ place_id) ∧
  (∀ t, t ∈ (delete_place db place_id).1.triggers ↔ t ∈ db.triggers ∧ t.place_id ≠ place_id) ∧
  (∀ l, l ∈ (delete_place db place_id).1.tagLinks ↔ l ∈ db.tagLinks ∧ l.place_id ≠ place_id) ∧
  (∀ m, m ∈ (delete_place db place_id).1.listMembers ↔
      m ∈ db.listMembers ∧ m.place_id ≠ place_id) ∧
  (delete_place db place_id).1.tags = db.tags ∧
  (delete_place db place_id).1.lists = db.lists

/-- Claim C7: deleting an existing place removes exactly that place together with
its visits, triggers and its association rows, while tags, lists and all
other places and rows survive unchanged. -/
theorem delete_place_cascade (db : DB) (place_id : String)
    (h : ∃ p ∈ db.places, p.id = place_id) :
    deleteCascadeSpec db place_id := by
  obtain ⟨p0, hp0, hid⟩ := h
  have hfind : (db.places.find? (fun p => p.id == place_id)).isSome := by
    rw [List.find?_isSome]
    exact ⟨p0, hp0, by simp [hid]⟩
  unfold deleteCascadeSpec delete_place
  cases hcase : db.places.find? (fun p => p.id == place_id) with
  | none => rw [hcase] at hfind; simp at hfind
  | some q =>
      refine ⟨rfl, ?_, ?_, ?_, ?_, ?_, rfl, rfl⟩ <;>
        · intro x
          simp [List.mem_filter]

/-- Witness for C7 at the sample database, which contains place pl1 with a
tag link and a list membership. -/
theorem delete_place_cascade_witness : deleteCascadeSpec sampleDB "pl1" :=
  delete_place_cascade sampleDB "pl1" (by decide)

/-- Claim C8: tag and list names are unique per owner.  On a database that already
holds a row with the requested name for USER_ID, creation fails with the
already-exists error and changes nothing; on a database with no such row,
creation succeeds and appends exactly the new row. -/
theorem create_name_unique (db1 db2 : DB) (tagId1 tagId2 listId1 listId2 : String)
    (tagName listName : String) (color : Option String)
    (description icon lcolor : Option String)
    (h1 : ∃ t ∈ db1.tags, t.uid = USER_ID ∧ t.name = tagName)
    (h2 : ∀ t ∈ db2.tags, ¬(t.uid = USER_ID ∧ t.name = tagName))
    (h3 : ∃ l ∈ db1.lists, l.uid = USER_ID ∧ l.name = listName)
    (h4 : ∀ l ∈ db2.lists, ¬(l.uid = USER_ID ∧ l.name = listName)) :
    create_tag db1 tagId1 tagName color = (db1, .httpError 400 "Tag already exists") ∧
    create_place_list db1 listId1 listName description icon lcolor
        = (db1, .httpError 400 "List already exists") ∧
    (∃ tag : PlaceTagDB, tag.uid = USER_ID ∧ tag.name = tagName ∧
        create_tag db2 tagId2 tagName color
          = ({ db2 with tags := db2.tags ++ [tag] }, .ok tag)) ∧
    (∃ lst : PlaceListDB, lst.uid = USER_ID ∧ lst.name = listName ∧
        create_place_list db2 listId2 listName description icon lcolor
          = ({ db2 with lists := db2.lists ++ [lst] }, .ok lst)) := by
  obtain ⟨t0, ht0, ht0u, ht0n⟩ := h1
  obtain ⟨l0, hl0, hl0u, hl0n⟩ := h3
  have hf1 : (db1.tags.find? (fun t => t.uid == USER_ID && t.name == tagName)).isSome := by
    rw [List.find?_isSome]
    exact ⟨t0, ht0, by simp [ht0u, ht0n]⟩
  have hf3 : (db1.lists.find? (fun l => l.uid == USER_ID && l.name == listName)).isSome := by
    rw [List.find?_isSome]
    exact ⟨l0, hl0, by simp [hl0u, hl0n]⟩
  have hf2 : db2.tags.find? (fun t => t.uid == USER_ID && t.name == tagName) = none := by
    rw [List.find?_eq_none]
    intro t ht
    simp only [Bool.and_eq_true, beq_iff_eq]
    intro hc
    exact h2 t ht hc
  have hf4 : db2.lists.find? (fun l => l.uid == USER_ID && l.name == listName) = none := by
    rw [List.find?_eq_none]
    intro l hl
    simp only [Bool.and_eq_true, beq_iff_eq]
    intro hc
    exact h4 l hl hc
  refine ⟨?_, ?_, ?_, ?_⟩
  · unfold create_tag
    cases hc : db1.tags.find? (fun t => t.uid == USER_ID && t.name == tagName) with
    | none => rw [hc] at hf1; simp at hf1
    | some _ => rfl
  · unfold create_place_list
    cases hc : db1.lists.find? (fun l => l.uid == USER_ID && l.name == listName) with
    | none => rw [hc] at hf3; simp at hf3
    | some _ => rfl
  · refine ⟨{ id := tagId2, uid := USER_ID, name := tagName, color := color }, rfl, rfl, ?_⟩
    unfold create_tag
    rw [hf2]
  · refine ⟨{ id := listId2, uid := USER_ID, name := listName,
              description := description, icon := icon, color := lcolor }, rfl, rfl, ?_⟩
    unfold create_place_list
    rw [hf4]

/-- Witness for C8: sampleDB already holds the tag named errands and the
list named favorites; an empty database holds neither. -/
theorem create_name_unique_witness :
    create_tag sampleDB "tg9" "errands" none
        = (sampleDB, .httpError 400 "Tag already exists") ∧
    create_place_list sampleDB "ls9" "favorites" none none none
        = (sampleDB, .httpError 400 "List already exists") ∧
    (∃ tag : PlaceTagDB, tag.uid = USER_ID ∧ tag.name = "errands" ∧
        create_tag emptyDB "tg9" "errands" none
          = ({ emptyDB with tags := emptyDB.tags ++ [tag] }, .ok tag)) ∧
    (∃ lst : PlaceListDB, lst.uid = USER_ID ∧ lst.name = "favorites" ∧
        create_place_list emptyDB "ls9" "favorites" none none none
          = ({ emptyDB with lists := emptyDB.lists ++ [lst] }, .ok lst)) :=
  create_name_unique sampleDB emptyDB
    "tg9" "tg9" "ls9" "ls9" "errands" "favorites" none none none none
    (by decide) (by decide) (by decide) (by decide)

/-- Conclusion bundle for idempotent association adds: running either add
twice yields the same database as running it once, and a successful add
leaves exactly one matching association row (never a duplicate). -/
def addIdempotentSpec (db : DB) (place_id tag_id list_id : String) : Prop :=
  (add_tag_to_place (add_tag_to_place db place_id tag_id).1 place_id tag_id).1
      = (add_tag_to_place db place_id tag_id).1 ∧
  (add_place_to_list (add_place_to_list db list_id place_id).1 list_id place_id).1
      = (add_place_to_list db list_id place_id).1 ∧
  (∀ m, (add_tag_to_place db place_id tag_id).2 = ApiResult.ok m →
      (add_tag_to_place db place_id tag_id).1.tagLinks.countP
          (fun l => l.place_id == place_id && l.tag_id == tag_id)
        = max 1 (db.tagLinks.countP (fun l => l.place_id == place_id && l.tag_id == tag_id))) ∧
  (∀ m, (add_place_to_list db list_id place_id).2 = ApiResult.ok m →
      (add_place_to_list db list_id place_id).1.listMembers.countP
          (fun x => x.list_id == list_id && x.place_id == place_id)
        = max 1 (db.listMembers.countP
            (fun x => x.list_id == list_id && x.place_id == place_id)))

/-- Claim C9: adding a tag to a place and adding a place to a list are idempotent:
a second identical call changes nothing, and a successful call leaves
exactly one matching association row. -/
theorem add_assoc_idempotent (db : DB) (place_id tag_id list_id : String) :
    addIdempotentSpec db place_id tag_id list_id := by
  unfold addIdempotentSpec
  refine ⟨?_, ?_, ?_, ?_⟩
  · cases hp : db.places.find? (fun p => p.id == place_id) with
    | none => simp [add_tag_to_place, hp]
    | some p =>
        cases ht : db.tags.find? (fun t => t.id == tag_id) with
        | none => simp [add_tag_to_place, hp, ht]
        | some t =>
            cases hl : db.tagLinks.find? (fun l => l.place_id == place_id && l.tag_id == tag_id)
            with
            | some l => simp [add_tag_to_place, hp, ht, hl]
            | none => simp [add_tag_to_place, hp, ht, hl, List.find?_append]
  · cases hp : db.lists.find? (fun l => l.id == list_id) with
    | none => simp [add_place_to_list, hp]
    | some p =>
        cases ht : db.places.find? (fun p => p.id == place_id) with
        | none => simp [add_place_to_list, hp, ht]
        | some t =>
            cases hl : db.listMembers.find?
                (fun m => m.list_id == list_id && m.place_id == place_id) with
            | some l => simp [add_place_to_list, hp, ht, hl]
            | none => simp [add_place_to_list, hp, ht, hl, List.find?_append]
  · intro m hm
    cases hp : db.places.find? (fun p => p.id == place_id) with
    | none => simp [add_tag_to_place, hp] at hm
    | some p =>
        cases ht : db.tags.find? (fun t => t.id == tag_id) with
        | none => simp [add_tag_to_place, hp, ht] at hm
        | some t =>
            cases hl : db.tagLinks.find? (fun l => l.place_id == place_id && l.tag_id == tag_id)
            with
            | some lk =>
                have hk := List.find?_some hl
                have hpos : 0 < db.tagLinks.countP
                    (fun l => l.place_id == place_id && l.tag_id == tag_id) := by
                  rw [List.countP_pos_iff]
                  exact ⟨lk, List.mem_of_find?_eq_some hl, hk⟩
                simp only [add_tag_to_place, hp, ht, hl]
                omega
            | none =>
                have hzero : db.tagLinks.countP
                    (fun l => l.place_id == place_id && l.tag_id == tag_id) = 0 := by
                  rw [List.countP_eq_zero]
                  exact List.find?_eq_none.mp hl
                simp [add_tag_to_place, hp, ht, hl, hzero]
  · intro m hm
    cases hp : db.lists.find? (fun l => l.id == list_id) with
    | none => simp [add_place_to_list, hp] at hm
    | some p =>
        cases ht : db.places.find? (fun p => p.id == place_id) with
        | none => simp [add_place_to_list, hp, ht] at hm
        | some t =>
            cases hl : db.listMembers.find?
                (fun x => x.list_id == list_id && x.place_id == place_id) with
            | some lk =>
                have hk := List.find?_some hl
                have hpos : 0 < db.listMembers.countP
                    (fun x => x.list_id == list_id && x.place_id == place_id) := by
                  rw [List.countP_pos_iff]
                  exact ⟨lk, List.mem_of_find?_eq_some hl, hk⟩
                simp only [add_place_to_list, hp, ht, hl]
                omega
            | none =>
                have hzero : db.listMembers.countP
                    (fun x => x.list_id == list_id && x.place_id == place_id) = 0 := by
                  rw [List.countP_eq_zero]
                  exact List.find?_eq_none.mp hl
                simp [add_place_to_list, hp, ht, hl, hzero]

/-- Witness for C9 at the sample database. -/
theorem add_assoc_idempotent_witness : addIdempotentSpec sampleDB "pl1" "tg1" "ls1" :=
  add_assoc_idempotent sampleDB "pl1" "tg1" "ls1"

/-- Counting open rows distributes over list append. -/
theorem openCount_append (l1 l2 : List PlaceVisitDB) (o p : String) :
    openCount (l1 ++ l2) o p = openCount l1 o p + openCount l2 o p := by
  simp [openCount]

/-- Open rows of one (owner, place) pair are among the open rows of that
owner. -/
theorem openCount_le_openVisits (vs : List PlaceVisitDB) (o p : String) :
    openCount vs o p ≤ (openVisits vs o).length := by
  rw [openVisits, openCount, ← List.countP_eq_length_filter]
  refine List.countP_mono_left ?_
  intro v _ hv
  simp only [Bool.and_eq_true] at hv ⊢
  exact ⟨hv.1.1, hv.2⟩

/-- Removing every open row of an owner leaves that owner no open rows. -/
theorem openCount_stay_self (vs : List PlaceVisitDB) (owner p : String) :
    openCount (vs.filter (fun w => !(w.uid == owner && w.exited_at.isNone))) owner p = 0 := by
  rw [openCount, List.countP_filter, List.countP_eq_zero]
  intro v _
  intro hcon
  rw [Bool.and_eq_true] at hcon
  obtain ⟨hpred, hkeep⟩ := hcon
  rw [Bool.and_eq_true] at hpred
  obtain ⟨hup, hn⟩ := hpred
  rw [Bool.and_eq_true] at hup
  have hopen : (v.uid == owner && v.exited_at.isNone) = true := by
    rw [Bool.and_eq_true]; exact ⟨hup.1, hn⟩
  rw [hopen] at hkeep
  simp at hkeep

/-- Removing open rows of an owner never increases any open count. -/
theorem openCount_stay_le (vs : List PlaceVisitDB) (owner o p : String) :
    openCount (vs.filter (fun w => !(w.uid == owner && w.exited_at.isNone))) o p
      ≤ openCount vs o p := by
  rw [openCount, List.countP_filter, openCount]
  refine List.countP_mono_left ?_
  intro v _ hv
  simp only [Bool.and_eq_true] at hv ⊢
  exact hv.1

/-- A freshly closed row is not open. -/
theorem openCount_closeVisit (v : PlaceVisitDB) (ts : Nat) (o p : String) :
    openCount [closeVisit v ts] o p = 0 := by
  simp [openCount, closeVisit, List.countP_cons]

/-- A fresh open row counts only for its own (owner, place) pair. -/
theorem openCount_newVisit (newId owner pid : String) (ts : Nat) (o p : String) :
    openCount [newVisit newId owner pid ts] o p ≤ 1 ∧
    (o ≠ owner → openCount [newVisit newId owner pid ts] o p = 0) := by
  constructor
  · simp only [openCount, List.countP_cons, List.countP_nil]
    split <;> omega
  · intro hne
    simp only [openCount, List.countP_cons, List.countP_nil, newVisit]
    have : (owner == o) = false := by
      simp only [beq_eq_false_iff_ne, ne_eq]
      exact fun hc => hne hc.symm
    simp [this]

/-- Claim C1: observe, the only operation that opens or closes visits, preserves
the visit-table invariant: at most one open visit per (owner, place) pair,
and every recorded exit lies at or after its entry. -/
theorem observe_preserves_visit_invariant
    (places : List PlaceDB) (visits : List PlaceVisitDB) (owner newId : String)
    (c : Coordinate) (ts : Nat) (vs2 : List PlaceVisitDB) (evs : List VisitEvent)
    (hinv : visitInvariant visits)
    (hok : observe places visits owner newId c ts = Except.ok (vs2, evs)) :
    visitInvariant vs2 := by
  obtain ⟨hcount, hexit⟩ := hinv
  simp only [observe] at hok
  split at hok
  · simp at hok
  · split at hok
    case h_1 heq =>
      -- no open visit for this owner
      have hzero : ∀ pp, openCount visits owner pp = 0 := by
        intro pp
        have h1 := openCount_le_openVisits visits owner pp
        rw [heq] at h1
        simpa using h1
      split at hok
      case h_1 q hq =>
        -- matched a place: a new visit is opened
        simp only [Except.ok.injEq, Prod.mk.injEq] at hok
        obtain ⟨hvs, -⟩ := hok
        subst hvs
        constructor
        · intro o p
          rw [openCount_append]
          by_cases ho : o = owner
          · rw [ho, hzero p]
            have h2 := (openCount_newVisit newId owner q.id ts owner p).1
            omega
          · have h0 := (openCount_newVisit newId owner q.id ts o p).2 ho
            have h2 := hcount o p
            omega
        · intro w hw t hwt
          rcases List.mem_append.mp hw with hw | hw
          · exact hexit w hw t hwt
          · rw [List.mem_singleton.mp hw] at hwt
            simp [newVisit] at hwt
      case h_2 hq =>
        -- no match: no visit state change
        simp only [Except.ok.injEq, Prod.mk.injEq] at hok
        obtain ⟨hvs, -⟩ := hok
        subst hvs
        exact ⟨hcount, hexit⟩
    case h_2 v heq =>
      -- exactly one open visit v for this owner
      have hmem : v ∈ openVisits visits owner := by
        rw [heq]
        exact List.mem_singleton.mpr rfl
      rw [openVisits] at hmem
      obtain ⟨hvmem, hvpred⟩ := List.mem_filter.mp hmem
      rw [Bool.and_eq_true] at hvpred
      split at hok
      · simp at hok
      case isFalse hts =>
        have hle : v.entered_at ≤ ts := Nat.le_of_not_lt hts
        split at hok
        case h_1 q hq =>
          split at hok
          · -- same place: no change
            simp only [Except.ok.injEq, Prod.mk.injEq] at hok
            obtain ⟨hvs, -⟩ := hok
            subst hvs
            exact ⟨hcount, hexit⟩
          · -- different place: close v, open a new visit
            simp only [Except.ok.injEq, Prod.mk.injEq] at hok
            obtain ⟨hvs, -⟩ := hok
            subst hvs
            constructor
            · intro o p
              rw [openCount_append, openCount_append, openCount_closeVisit]
              by_cases ho : o = owner
              · rw [ho, openCount_stay_self]
                have h2 := (openCount_newVisit newId owner q.id ts owner p).1
                omega
              · have h0 := (openCount_newVisit newId owner q.id ts o p).2 ho
                have h1 := openCount_stay_le visits owner o p
                have h2 := hcount o p
                omega
            · intro w hw t hwt
              rcases List.mem_append.mp hw with hw | hw
              · rcases List.mem_append.mp hw with hw | hw
                · exact hexit w (List.mem_filter.mp hw).1 t hwt
                · rw [List.mem_singleton.mp hw] at hwt ⊢
                  simp only [closeVisit, Option.some.injEq] at hwt
                  simp only [closeVisit]
                  omega
              · rw [List.mem_singleton.mp hw] at hwt
                simp [newVisit] at hwt
        case h_2 hq =>
          -- no match: close v only
          simp only [Except.ok.injEq, Prod.mk.injEq] at hok
          obtain ⟨hvs, -⟩ := hok
          subst hvs
          constructor
          · intro o p
            rw [openCount_append, openCount_closeVisit]
            by_cases ho : o = owner
            · rw [ho, openCount_stay_self]
              omega
            · have h1 := openCount_stay_le visits owner o p
              have h2 := hcount o p
              omega
          · intro w hw t hwt
            rcases List.mem_append.mp hw with hw | hw
            · exact hexit w (List.mem_filter.mp hw).1 t hwt
            · rw [List.mem_singleton.mp hw] at hwt ⊢
              simp only [closeVisit, Option.some.injEq] at hwt
              simp only [closeVisit]
              omega
    case h_3 =>
      simp at hok

/-- Witness for C1: observing a sample inside place pl1 with no prior visit
state opens one visit, and the invariant holds afterwards. -/
theorem observe_preserves_visit_invariant_witness :
    visitInvariant [newVisit "v1" "default_user" "pl1" 1000] :=
  observe_preserves_visit_invariant sampleDB.places [] "default_user" "v1"
    { lat := 40, lon := -74 } 1000 [newVisit "v1" "default_user" "pl1" 1000]
    [VisitEvent.entry "pl1"]
    ⟨fun o p => by simp [openCount], fun v hv => absurd hv (List.not_mem_nil v)⟩
    (by norm_num [observe, sampleDB, validCoordinate, openVisits, pickPlace, insidePlace,
          dist2, USER_ID, newVisit, dayOfWeek])

/-- Claim C3: with one open visit v, an observation carrying a timestamp earlier
than the entry of v is rejected with TemporalOrderingError and no successor
visit state is produced, and every visit row an accepted observation closes
records exited_at = ts at or after its entry together with
dwell_minutes = (exited_at - entered_at) in whole minutes. -/
theorem observe_close_dwell
    (places : List PlaceDB) (visits : List PlaceVisitDB) (owner newId : String)
    (c : Coordinate) (ts : Nat) (v : PlaceVisitDB)
    (heq : openVisits visits owner = [v]) :
    (ts < v.entered_at → validCoordinate c = true →
      observe places visits owner newId c ts = Except.error ObserveError.temporalOrdering) ∧
    (∀ vs2 evs, observe places visits owner newId c ts = Except.ok (vs2, evs) →
      ∀ w ∈ vs2, w ∉ visits → ∀ t, w.exited_at = some t →
        w.entered_at ≤ t ∧ w.dwell_minutes = some ((t - w.entered_at) / 60)) := by
  constructor
  · intro hts hv
    simp [observe, hv, heq, hts]
  · intro vs2 evs hok
    simp only [observe] at hok
    split at hok
    · simp at hok
    · simp only [heq] at hok
      split at hok
      · simp at hok
      case isFalse hts =>
        have hle : v.entered_at ≤ ts := Nat.le_of_not_lt hts
        split at hok
        case h_1 q hq =>
          split at hok
          · -- same place: nothing new appears
            simp only [Except.ok.injEq, Prod.mk.injEq] at hok
            obtain ⟨hvs, -⟩ := hok
            subst hvs
            intro w hw hnw
            exact absurd hw hnw
          · -- close v and open a visit at q
            simp only [Except.ok.injEq, Prod.mk.injEq] at hok
            obtain ⟨hvs, -⟩ := hok
            subst hvs
            intro w hw hnw t hwt
            rcases List.mem_append.mp hw with hw | hw
            · rcases List.mem_append.mp hw with hw | hw
              · exact absurd (List.mem_filter.mp hw).1 hnw
              · rw [List.mem_singleton.mp hw] at hwt ⊢
                simp only [closeVisit, Option.some.injEq] at hwt
                simp only [closeVisit]
                subst hwt
                exact ⟨hle, rfl⟩
            · rw [List.mem_singleton.mp hw] at hwt
              simp [newVisit] at hwt
        case h_2 hq =>
          simp only [Except.ok.injEq, Prod.mk.injEq] at hok
          obtain ⟨hvs, -⟩ := hok
          subst hvs
          intro w hw hnw t hwt
          rcases List.mem_append.mp hw with hw | hw
          · exact absurd (List.mem_filter.mp hw).1 hnw
          · rw [List.mem_singleton.mp hw] at hwt ⊢
            simp only [closeVisit, Option.some.injEq] at hwt
            simp only [closeVisit]
            subst hwt
            exact ⟨hle, rfl⟩

/-- Open visit row used by the C3 witness. -/
def witnessVisit : PlaceVisitDB :=
  { id := "v0", uid := "default_user", place_id := "pl1", entered_at := 600,
    exited_at := none, dwell_minutes := none, day_of_week := 0, is_routine := false }

/-- Witness for C3 with one open visit entered at 600 and a sample at 300. -/
theorem observe_close_dwell_witness :
    (300 < witnessVisit.entered_at → validCoordinate { lat := 0, lon := 0 } = true →
      observe sampleDB.places [witnessVisit] "default_user" "v9" { lat := 0, lon := 0 } 300
          = Except.error ObserveError.temporalOrdering) ∧
    (∀ vs2 evs, observe sampleDB.places [witnessVisit] "default_user" "v9"
          { lat := 0, lon := 0 } 300 = Except.ok (vs2, evs) →
      ∀ w ∈ vs2, w ∉ [witnessVisit] → ∀ t, w.exited_at = some t →
        w.entered_at ≤ t ∧ w.dwell_minutes = some ((t - w.entered_at) / 60)) :=
  observe_close_dwell sampleDB.places [witnessVisit] "default_user" "v9"
    { lat := 0, lon := 0 } 300 witnessVisit (by rfl)

/-- Case analysis of one trigger evaluation: either nothing happens and the
trigger is returned unchanged with no emission, or the trigger fires, its
last_triggered moves to now, and when a previous firing time exists the
cooldown had elapsed. -/
theorem fireOne_cases (tr : PlaceTriggerDB) (ev : String) (now : Nat) (d : Bool) :
    fireOne tr ev now d = (tr, none) ∨
    ((fireOne tr ev now d).1 = { tr with last_triggered := some now } ∧
      (fireOne tr ev now d).2 ≠ none ∧
      (∀ t, tr.last_triggered = some t → tr.cooldown_minutes ≤ now - t)) := by
  unfold fireOne
  split
  · split
    case h_1 t heq =>
      split
      case isTrue hcd => exact Or.inl rfl
      case isFalse hcd =>
        refine Or.inr ⟨rfl, by simp, ?_⟩
        intro t2 ht2
        rw [heq] at ht2
        cases ht2
        exact Nat.le_of_not_lt hcd
    case h_2 heq =>
      refine Or.inr ⟨rfl, by simp, ?_⟩
      intro t2 ht2
      rw [heq] at ht2
      cases ht2
  · exact Or.inl rfl

/-- Emission times of a run are spaced by cooldown, and when a last firing
time is already recorded every emission lies at least one cooldown after
it, provided the event stream is time-ordered and never precedes the
recorded firing time. -/
theorem runTrigger_fire_times (tr : PlaceTriggerDB) (events : List TriggerEvent)
    (hsorted : List.Pairwise (fun a b => a.now ≤ b.now) events)
    (hlb : ∀ t, tr.last_triggered = some t → ∀ e ∈ events, t ≤ e.now) :
    List.Chain' (fun a b => a + tr.cooldown_minutes ≤ b) (runTrigger tr events).2 ∧
    (∀ t, tr.last_triggered = some t →
      ∀ x ∈ (runTrigger tr events).2, t + tr.cooldown_minutes ≤ x) := by
  induction events generalizing tr with
  | nil => simp [runTrigger]
  | cons e rest ih =>
      obtain ⟨hhead, htail⟩ := List.pairwise_cons.mp hsorted
      rcases fireOne_cases tr e.event e.now e.dispatchOk with hskip | ⟨hst, hfired, hcd⟩
      · have hrun : runTrigger tr (e :: rest) = runTrigger tr rest := by
          simp only [runTrigger, hskip]
        rw [hrun]
        exact ih tr htail (fun t ht e2 he2 => hlb t ht e2 (List.mem_cons_of_mem e he2))
      · obtain ⟨r, hr⟩ := Option.ne_none_iff_exists.mp hfired
        have hrun : runTrigger tr (e :: rest) =
            ((runTrigger { tr with last_triggered := some e.now } rest).1,
              e.now :: (runTrigger { tr with last_triggered := some e.now } rest).2) := by
          simp only [runTrigger, ← hr, ← hst]
        rw [hrun]
        have hlb2 : ∀ t, ({ tr with last_triggered := some e.now } :
            PlaceTriggerDB).last_triggered = some t →
            ∀ e2 ∈ rest, t ≤ e2.now := by
          intro t ht e2 he2
          simp only [Option.some.injEq] at ht
          subst ht
          exact hhead e2 he2
        obtain ⟨ihchain, ihlb⟩ := ih { tr with last_triggered := some e.now } htail hlb2
        constructor
        · rw [List.chain'_cons']
          refine ⟨?_, ihchain⟩
          intro y hy
          exact ihlb e.now rfl y (List.mem_of_mem_head? hy)
        · intro t ht x hx
          have hle : t ≤ e.now := hlb t ht e (List.mem_cons_self e rest)
          have hcd2 : tr.cooldown_minutes ≤ e.now - t := hcd t ht
          rcases List.mem_cons.mp hx with hx | hx
          · subst hx
            omega
          · have h2 := ihlb e.now rfl x hx
            omega

/-- Claim C2: over any time-ordered sequence of events, a trigger with no prior
firing never emits two ActionRequests less than cooldown_minutes apart;
a trigger whose last_triggered is set and within cooldown is skipped
unchanged; and the trigger-state update is identical whether the external
dispatch succeeded or failed. -/
theorem trigger_cooldown (tr : PlaceTriggerDB) (events : List TriggerEvent)
    (h0 : tr.last_triggered = none)
    (hsorted : List.Pairwise (fun a b => a.now ≤ b.now) events) :
    List.Chain' (fun a b => a + tr.cooldown_minutes ≤ b) (runTrigger tr events).2 ∧
    (∀ (tr2 : PlaceTriggerDB) (ev : String) (now : Nat) (d : Bool) (t : Nat),
      tr2.last_triggered = some t → now - t < tr2.cooldown_minutes →
      fireOne tr2 ev now d = (tr2, none)) ∧
    (∀ (tr2 : PlaceTriggerDB) (ev : String) (now : Nat),
      fireOne tr2 ev now true = fireOne tr2 ev now false) := by
  refine ⟨(runTrigger_fire_times tr events hsorted ?_).1, ?_, ?_⟩
  · intro t ht
    rw [h0] at ht
    cases ht
  · intro tr2 ev now d t ht hcd
    unfold fireOne
    split
    · rw [ht]
      simp [hcd]
    · rfl
  · intro tr2 ev now
    rfl

/-- Entry trigger used by the C2 witness: cooldown 60, never fired. -/
def sampleTrigger : PlaceTriggerDB :=
  { id := "tr1", uid := USER_ID, place_id := "pl1", name := "arrive home",
    trigger_type := "entry", action_type := "notification", action_payload := none,
    enabled := true, cooldown_minutes := 60, last_triggered := none }

/-- Bursty event stream used by the C2 witness: entries at 0, 30 and 61
minutes, the middle one with a failing dispatch. -/
def sampleEvents : List TriggerEvent :=
  [{ event := "entry", now := 0, dispatchOk := true },
   { event := "entry", now := 30, dispatchOk := false },
   { event := "entry", now := 61, dispatchOk := true }]

/-- Witness for C2 on the sample trigger and event stream. -/
theorem trigger_cooldown_witness :
    List.Chain' (fun a b => a + sampleTrigger.cooldown_minutes ≤ b)
        (runTrigger sampleTrigger sampleEvents).2 ∧
    (∀ (tr2 : PlaceTriggerDB) (ev : String) (now : Nat) (d : Bool) (t : Nat),
      tr2.last_triggered = some t → now - t < tr2.cooldown_minutes →
      fireOne tr2 ev now d = (tr2, none)) ∧
    (∀ (tr2 : PlaceTriggerDB) (ev : String) (now : Nat),
      fireOne tr2 ev now true = fireOne tr2 ev now false) :=
  trigger_cooldown sampleTrigger sampleEvents rfl (by decide)

instance : IsTotal Sample sampleLE :=
  ⟨fun a b => Nat.le_total a.ts b.ts⟩

instance : IsTrans Sample sampleLE :=
  ⟨fun _ _ _ h1 h2 => Nat.le_trans h1 h2⟩

/-- Claim C6: discovery is idempotent over a fixed sample set: because clustering
seeds in ascending-timestamp order, two runs over the same samples, however
the repository happens to list them, report identical candidate centroids. -/
theorem discovery_idempotent (s1 s2 : List Sample) (min_visits : Nat)
    (hperm : s1.Perm s2) (hnodup : (s1.map Sample.ts).Nodup) :
    discoverCentroids s1 min_visits = discoverCentroids s2 min_visits := by
  have hsorteq : s1.insertionSort sampleLE = s2.insertionSort sampleLE := by
    have hp : (s1.insertionSort sampleLE).Perm (s2.insertionSort sampleLE) :=
      (List.perm_insertionSort sampleLE s1).trans
        (hperm.trans (List.perm_insertionSort sampleLE s2).symm)
    have hn1 : ((s1.insertionSort sampleLE).map Sample.ts).Nodup :=
      (((List.perm_insertionSort sampleLE s1).map Sample.ts).nodup_iff).mpr hnodup
    have hn2 : ((s2.insertionSort sampleLE).map Sample.ts).Nodup := by
      refine (((List.perm_insertionSort sampleLE s2).map Sample.ts).nodup_iff).mpr ?_
      exact ((hperm.map Sample.ts).nodup_iff).mp hnodup
    have hs1 : List.Pairwise (fun a b : Sample => a.ts < b.ts)
        (s1.insertionSort sampleLE) := by
      have hsort : List.Pairwise sampleLE (s1.insertionSort sampleLE) :=
        List.sorted_insertionSort sampleLE s1
      have hne : List.Pairwise (fun a b : Sample => a.ts ≠ b.ts)
          (s1.insertionSort sampleLE) := List.pairwise_map.mp hn1
      exact (hsort.and hne).imp (fun h => Nat.lt_of_le_of_ne h.1 h.2)
    have hs2 : List.Pairwise (fun a b : Sample => a.ts < b.ts)
        (s2.insertionSort sampleLE) := by
      have hsort : List.Pairwise sampleLE (s2.insertionSort sampleLE) :=
        List.sorted_insertionSort sampleLE s2
      have hne : List.Pairwise (fun a b : Sample => a.ts ≠ b.ts)
          (s2.insertionSort sampleLE) := List.pairwise_map.mp hn2
      exact (hsort.and hne).imp (fun h => Nat.lt_of_le_of_ne h.1 h.2)
    haveI : IsAntisymm Sample (fun a b => a.ts < b.ts) :=
      ⟨fun a b h1 h2 => absurd (Nat.lt_trans h1 h2) (Nat.lt_irrefl _)⟩
    exact List.eq_of_perm_of_sorted hp hs1 hs2
  unfold discoverCentroids clusterSamples
  rw [hsorteq]

/-- Witness for C6: the same two samples in both orders yield the same
centroids. -/
theorem discovery_idempotent_witness :
    discoverCentroids [{ lat := 1, lon := 2, ts := 100 }, { lat := 3, lon := 4, ts := 50 }] 1
      = discoverCentroids [{ lat := 3, lon := 4, ts := 50 }, { lat := 1, lon := 2, ts := 100 }] 1 :=
  discovery_idempotent _ _ 1 (by decide) (by decide)
